import Mathlib

/-!
Verification of the membership-lifecycle and operational-automation core of
`src/gym_app.py` (class `GymManagementSoftware`), as a shallow embedding.

Modelling conventions:
* Calendar dates (`datetime.date`) are proleptic-Gregorian ordinal day
  numbers (`Day := Int`), exactly `date.toordinal`: `d + timedelta(days=n)`
  is `d + n` and date comparison is `Int` comparison.  Date strings are
  parsed by `parseDateStr`, which models `datetime.strptime(s, "%Y-%m-%d")`
  (4-digit year, 1-2 digit month/day, validity checked against the
  Gregorian calendar) composed with `toordinal`.
* File-modification times are `Int` seconds; `timedelta(days=7)` is
  `7 * 86400`.
* Python strings are Lean `String`s over their character lists; `str.strip`
  is `pyStrip`, `str.isdigit` is `isDigitStr` (ASCII digits; the claims only
  exercise ASCII input), `int(s)` is `pyIntParse` (sign + digits; Python's
  underscore separators are not modelled, no claim exercises them),
  `float(s)` validity is `pyFloatOk` (plain decimal forms).
* The SQLite tables are Lean lists; `AUTOINCREMENT` ids are `next…Id`
  counters in `Store`.  A GUI handler that ends in `messagebox.showerror`
  (a caught, user-visible error) returns `OpResult.userError`; a handler
  that lets a Python exception escape uncaught returns `OpResult.fault`
  (for the `Except`-valued backup operation, `Except.error`).  Successful
  commits return `OpResult.ok`.
* The WhatsApp messenger `pywhatkit.sendwhatmsg_instantly` is an oracle
  `deliver : Member → Bool` (`true` = delivered, `false` = raised; the
  message text itself is presentation and out of scope).  Rendering
  (treeviews, charts, CSV export) is presentation and not modelled.
-/

namespace GymApp

/-- A calendar date as its `toordinal` day number. -/
abbrev Day := Int

/-! ### Python string primitives -/

/-- Whitespace stripped by Python `str.strip()` (ASCII subset). -/
def isSpaceChar (c : Char) : Bool :=
  c == ' ' || c == '\t' || c == '\n' || c == '\r' || c == '\x0b' || c == '\x0c'

/-- Python `s.strip()`. -/
def pyStrip (s : String) : String :=
  ⟨((s.data.dropWhile isSpaceChar).reverse.dropWhile isSpaceChar).reverse⟩

/-- Python `s.isdigit()`: nonempty and all digits (`"".isdigit()` is false). -/
def isDigitStr (s : String) : Bool :=
  !s.data.isEmpty && s.data.all Char.isDigit

/-- Decimal value of a digit string. -/
def strToNat (s : String) : Nat :=
  s.data.foldl (fun a c => a * 10 + (c.toNat - 48)) 0

/-- Python `int(s)`: strips, then optional sign followed by digits. -/
def pyIntParse (s : String) : Option Int :=
  let t := pyStrip s
  if t.data.take 1 == ['-'] then
    if isDigitStr ⟨t.data.drop 1⟩ then some (-(strToNat ⟨t.data.drop 1⟩ : Int)) else none
  else if t.data.take 1 == ['+'] then
    if isDigitStr ⟨t.data.drop 1⟩ then some (strToNat ⟨t.data.drop 1⟩) else none
  else if isDigitStr t then some (strToNat t) else none

/-- Whether Python `float(s)` succeeds, for the plain decimal forms
(optional sign, digits with at most one point; exponents/`inf`/`nan` are
accepted by Python too but exercised by no claim). -/
def pyFloatOk (s : String) : Bool :=
  let t := pyStrip s
  let u : List Char := if t.data.take 1 == ['-'] || t.data.take 1 == ['+'] then
    t.data.drop 1 else t.data
  let intPart := u.takeWhile (fun c => !(c == '.'))
  let rest := u.dropWhile (fun c => !(c == '.'))
  match rest with
  | [] => !u.isEmpty && u.all Char.isDigit
  | _ :: frac =>
      intPart.all Char.isDigit && frac.all Char.isDigit &&
      !(intPart.isEmpty && frac.isEmpty)

/-- Python `s.lstrip('+')`. -/
def lstripPlus (s : String) : String :=
  ⟨s.data.dropWhile (fun c => c == '+')⟩

/-- `p` is a prefix of `s` (SQL `LIKE 'p%'`, Python `startswith`). -/
def strHasPrefix (s p : String) : Bool :=
  p.data.isPrefixOf s.data

/-- `p` is a suffix of `s`. -/
def strHasSuffix (s p : String) : Bool :=
  p.data.reverse.isPrefixOf s.data.reverse

/-! ### Gregorian calendar (`datetime.strptime` + `date.toordinal`) -/

def isLeap (y : Nat) : Bool :=
  (y % 4 == 0 && y % 100 != 0) || y % 400 == 0

def daysInMonth (y m : Nat) : Nat :=
  if m == 2 then (if isLeap y then 29 else 28)
  else if m == 4 || m == 6 || m == 9 || m == 11 then 30
  else 31

def daysBeforeMonth (y m : Nat) : Nat :=
  (List.range (m - 1)).foldl (fun acc i => acc + daysInMonth y (i + 1)) 0

def daysBeforeYear (y : Nat) : Nat :=
  let p := y - 1
  p * 365 + p / 4 - p / 100 + p / 400

/-- `datetime.date(y, m, d).toordinal()` (day 1 = 0001-01-01). -/
def toOrdinal (y m d : Nat) : Day :=
  ((daysBeforeYear y + daysBeforeMonth y m + d : Nat) : Int)

/-- Split a character list at `'-'` (Python `s.split('-')` shape). -/
def splitDash : List Char → List (List Char)
  | [] => [[]]
  | c :: rest =>
    let r := splitDash rest
    if c == '-' then [] :: r
    else
      match r with
      | [] => [[c]]
      | h :: t => (c :: h) :: t

/-- `datetime.strptime(s, "%Y-%m-%d").date().toordinal()`: `none` models the
`ValueError` the callers catch.  `%Y` is exactly four digits, `%m`/`%d` one
or two, and the triple must be a real calendar date with `1 <= year`. -/
def parseDateStr (s : String) : Option Day :=
  match splitDash s.data with
  | [ys, ms, ds] =>
    if isDigitStr ⟨ys⟩ && ys.length == 4 && isDigitStr ⟨ms⟩ && ms.length ≤ 2 &&
        isDigitStr ⟨ds⟩ && ds.length ≤ 2 then
      let y := strToNat ⟨ys⟩
      let m := strToNat ⟨ms⟩
      let d := strToNat ⟨ds⟩
      if 1 ≤ y && 1 ≤ m && m ≤ 12 && 1 ≤ d && d ≤ daysInMonth y m then
        some (toOrdinal y m d)
      else none
    else none
  | _ => none

/-! ### Data model (`setup_database`) -/

/-- A row of `members`. -/
structure Member where
  id : Nat
  name : String
  phone : String
  joinDate : Day
  expiryDate : Day
deriving DecidableEq, Repr

/-- A row of `payments`.  `amount` keeps the validated text of the REAL
column opaquely: no modelled code path computes with it. -/
structure Payment where
  id : Nat
  memberId : Int
  paymentDate : Day
  amount : String
  method : String
deriving DecidableEq, Repr

/-- A row of `attendance`. -/
structure AttRow where
  id : Nat
  memberId : Int
  attDate : Day
  status : String
deriving DecidableEq, Repr

/-- A row of `subscription_plans` (`price` opaque, as in `Payment`). -/
structure Plan where
  id : Nat
  durationMonths : Int
  price : String
  description : String
deriving DecidableEq, Repr

/-- The SQLite database `gym.db`. -/
structure Store where
  members : List Member
  payments : List Payment
  attendance : List AttRow
  plans : List Plan
  nextMemberId : Nat
  nextPaymentId : Nat
  nextAttId : Nat
deriving DecidableEq, Repr

/-- The four seeded plans (`setup_database`). -/
def defaultPlans : List Plan :=
  [⟨1, 1, "500", "Monthly Plan"⟩, ⟨2, 3, "1400", "Quarterly Plan"⟩,
   ⟨3, 6, "2700", "Half-Yearly Plan"⟩, ⟨4, 12, "5000", "Yearly Plan"⟩]

/-- A freshly initialised database. -/
def emptyStore : Store :=
  { members := [], payments := [], attendance := [], plans := defaultPlans,
    nextMemberId := 1, nextPaymentId := 1, nextAttId := 1 }

/-- Outcome of a GUI mutation handler: `ok`/`userError` are the
`messagebox` branches (caught), `fault` an uncaught Python exception. -/
inductive OpResult where
  | ok (msg : String)
  | userError (msg : String)
  | fault (msg : String)
deriving DecidableEq, Repr

/-- Whether the handler reached its success commit. -/
def OpResult.isSuccess : OpResult → Bool
  | .ok _ => true
  | _ => false

/-! ### Expiry Calculator and Lifecycle Classifier -/

/-- `expiry_date = join_date + timedelta(days=30 * months)` (`add_member`,
line 262). -/
def expiry_of (joinDate : Day) (months : Int) : Day :=
  joinDate + 30 * months

/-- The two lifecycle states (`refresh_members`, lines 310-315). -/
inductive Status where
  | Active
  | Expired
deriving DecidableEq, Repr

/-- `"Active" if today <= expiry else "Expired"`.  (`expiry and …` in the
source is vacuous: `expiry_date` is a NOT NULL date and dates are always
truthy.) -/
def classify (expiry today : Day) : Status :=
  if today ≤ expiry then .Active else .Expired

/-- `refresh_members` recomputes each row's status from its stored expiry
date on every read; nothing is persisted (row order and colour tags are
presentation). -/
def refresh_members (members : List Member) (today : Day) : List (Member × Status) :=
  members.map (fun m => (m, classify m.expiryDate today))

/-! ### Interactive mutation handlers -/

/-- `add_member` (lines 234-292).  Arguments are the raw entry texts; the
country code and plan id come from read-only comboboxes but are modelled as
arbitrary strings.  The post-commit WhatsApp welcome message is delivered
inside its own try/except and cannot change the store or the outcome, so it
is not modelled here. -/
def add_member (s : Store) (nameI ccI phoneI joinI planI : String) :
    OpResult × Store :=
  if !isDigitStr (pyStrip phoneI) then
    (.userError "Phone number must be digits only!", s)
  else if ccI == "+91" && (pyStrip phoneI).data.length != 10 then
    (.userError "For India (+91), local phone must be exactly 10 digits!", s)
  else
    match pyIntParse planI with
    | none => (.fault "ValueError: int() on plan id", s)
    | some pid =>
      if pyStrip nameI == "" || pyStrip joinI == "" then
        (.userError "All fields are required!", s)
      else
        match s.plans.find? (fun p => (p.id : Int) == pid) with
        | none => (.userError "Invalid plan ID!", s)
        | some plan =>
          match parseDateStr (pyStrip joinI) with
          | none => (.userError "Invalid date!", s)
          | some join_date =>
            if s.members.any (fun m => m.phone == lstripPlus ccI ++ pyStrip phoneI) then
              (.userError "Phone number already exists!", s)
            else
              (.ok "Member added successfully!",
               { s with
                 members := s.members ++
                   [{ id := s.nextMemberId, name := pyStrip nameI,
                      phone := lstripPlus ccI ++ pyStrip phoneI,
                      joinDate := join_date,
                      expiryDate := expiry_of join_date plan.durationMonths }],
                 nextMemberId := s.nextMemberId + 1 })

/-- `delete_member` (lines 359-373): `DELETE FROM members WHERE id=?`,
where the id is read from the selected row.  Payments and attendance are
untouched. -/
def delete_member (s : Store) (memberId : Nat) : Store :=
  { s with members := s.members.filter (fun m => m.id != memberId) }

/-- `add_payment` (lines 424-452).  `int(member_id)` on line 442 sits
outside every try/except, so a non-numeric member id is an uncaught
`ValueError` (`fault`), unlike the caught amount/date errors. -/
def add_payment (s : Store) (memberIdI amountI methodI dateI : String) :
    OpResult × Store :=
  if pyStrip memberIdI == "" || pyStrip amountI == "" ||
      pyStrip methodI == "" || pyStrip dateI == "" then
    (.userError "All fields are required!", s)
  else
    match pyFloatOk (pyStrip amountI), parseDateStr (pyStrip dateI) with
    | true, some payment_date =>
      (match pyIntParse (pyStrip memberIdI) with
       | none => (.fault "ValueError: invalid literal for int()", s)
       | some mid =>
         if !(s.members.any (fun m => (m.id : Int) == mid)) then
           (.userError "Member ID does not exist!", s)
         else
           (.ok "Payment added!",
            { s with
              payments := s.payments ++
                [{ id := s.nextPaymentId, memberId := mid,
                   paymentDate := payment_date, amount := pyStrip amountI,
                   method := pyStrip methodI }],
              nextPaymentId := s.nextPaymentId + 1 }))
    | _, _ => (.userError "Invalid amount or date!", s)

/-- `mark_attendance` (lines 525-565).  As in `add_payment`,
`int(member_id)` (line 541) is outside the try/except. -/
def mark_attendance (s : Store) (memberIdI dateI statusI : String) :
    OpResult × Store :=
  if pyStrip memberIdI == "" || pyStrip dateI == "" then
    (.userError "Member ID and Date are required!", s)
  else
    match parseDateStr (pyStrip dateI) with
    | none => (.userError "Invalid date!", s)
    | some att_date =>
      match pyIntParse (pyStrip memberIdI) with
      | none => (.fault "ValueError: invalid literal for int()", s)
      | some mid =>
        if !(s.members.any (fun m => (m.id : Int) == mid)) then
          (.userError "Member ID does not exist!", s)
        else if s.attendance.any (fun a => a.memberId == mid && a.attDate == att_date) then
          (.userError "Attendance already marked for this date!", s)
        else
          (.ok "Attendance marked!",
           { s with
             attendance := s.attendance ++
               [{ id := s.nextAttId, memberId := mid, attDate := att_date,
                  status := statusI }],
             nextAttId := s.nextAttId + 1 })

/-- A sequence of `mark_attendance` requests
(memberId text, date text, status text), applied in order. -/
def applyMarks (s : Store) (reqs : List (String × String × String)) : Store :=
  reqs.foldl (fun st r => (mark_attendance st r.1 r.2.1 r.2.2).2) s

/-- At most one attendance row per (member, date) pair. -/
def attInvariant (s : Store) : Prop :=
  (s.attendance.map (fun a => (a.memberId, a.attDate))).Nodup

instance (s : Store) : Decidable (attInvariant s) := by
  unfold attInvariant; infer_instance

/-! ### Renewal Notifier (`check_and_send_renewals`, lines 793-812) -/

/-- The SQL selection: `expiry_date IN (today, tomorrow) AND phone LIKE
'91%'` (the prefix is the literal `'91'` in the query text). -/
def check_renewals_select (members : List Member) (today : Day) : List Member :=
  members.filter (fun m =>
    (m.expiryDate == today || m.expiryDate == today + 1) && strHasPrefix m.phone "91")

/-- The delivery loop: one `sendwhatmsg_instantly` per selected member,
each inside its own try/except; `sent_count` counts the successes. -/
def send_renewals (selected : List Member) (deliver : Member → Bool) : Nat :=
  selected.foldl (fun cnt m => if deliver m then cnt + 1 else cnt) 0

/-- The whole startup scan: select, then deliver, returning `sent_count`. -/
def check_and_send_renewals (members : List Member) (today : Day)
    (deliver : Member → Bool) : Nat :=
  send_renewals (check_renewals_select members today) deliver

/-! ### Backup Rotation Manager (`auto_backup_and_cleanup`, lines 814-831) -/

/-- A file in the working directory, by name and last-modified time
(seconds). -/
structure BackupFile where
  name : String
  mtime : Int
deriving DecidableEq, Repr

/-- `glob.glob("gym_backup_*.db")` membership.  For names this shape the
glob is exactly prefix `gym_backup_` plus suffix `.db` (the two cannot
overlap: position 10 of any such name is `_`, never `.`). -/
def matchesBackupGlob (n : String) : Bool :=
  strHasPrefix n "gym_backup_" && strHasSuffix n ".db"

/-- The cleanup loop: delete every glob match whose mtime is strictly
before `now - timedelta(days=7)`; return the survivors and the `deleted`
count the final messagebox reports. -/
def pruneBackups (files : List BackupFile) (now : Int) : List BackupFile × Nat :=
  (files.filter (fun f => !(matchesBackupGlob f.name && decide (f.mtime < now - 7 * 86400))),
   (files.filter (fun f => matchesBackupGlob f.name && decide (f.mtime < now - 7 * 86400))).length)

/-- The directory holding the live store file (`gym.db`, `none` = missing)
and its sibling files. -/
structure FileSystem where
  gymDb : Option Store
  backups : List BackupFile
deriving DecidableEq, Repr

/-- `f"gym_backup_{timestamp}.db"`. -/
def snapName (ts : String) : String :=
  "gym_backup_" ++ ts ++ ".db"

/-- `auto_backup_and_cleanup`: `shutil.copy('gym.db', backup_path)` and then
the pruning loop.  `copyOk` is the outcome of the copy (disk full, source
missing, …).  The copy is NOT inside a try/except — neither here nor in the
caller (`__init__`, line 107) — so a copy failure is an uncaught exception,
embedded as `Except.error`; the success path returns the new directory
contents and the reported `deleted` count. -/
def auto_backup_and_cleanup (fs : FileSystem) (now : Int) (ts : String)
    (copyOk : Bool) : Except String (FileSystem × Nat) :=
  if copyOk then
    let afterCopy : List BackupFile := { name := snapName ts, mtime := now } :: fs.backups
    .ok ({ gymDb := fs.gymDb, backups := (pruneBackups afterCopy now).1 },
         (pruneBackups afterCopy now).2)
  else
    .error "shutil.copy failed"

/-- A one-member database (concrete test fixture for the witnesses). -/
def store1 : Store :=
  { emptyStore with
    members := [{ id := 1, name := "Asha", phone := "919876543210",
                  joinDate := toOrdinal 2024 1 1, expiryDate := toOrdinal 2024 1 31 }],
    nextMemberId := 2 }

/-! ### Helper lemmas -/

theorem foldl_count_eq_filter_length (deliver : Member → Bool) :
    ∀ (l : List Member) (acc : Nat),
      l.foldl (fun c m => if deliver m then c + 1 else c) acc =
        acc + (l.filter deliver).length := by
  intro l
  induction l with
  | nil => simp
  | cons a t ih =>
      intro acc
      by_cases h : deliver a = true <;>
        (simp [List.foldl_cons, List.filter_cons, h, ih]; try omega)

theorem filter_length_split (p : Member → Bool) :
    ∀ l : List Member,
      l.length = (l.filter p).length + (l.filter (fun m => !(p m))).length := by
  intro l
  induction l with
  | nil => simp
  | cons a t ih =>
      by_cases h : p a = true <;> (simp [List.filter_cons, h, ih]; omega)

/-! ### Claims about the Expiry Calculator and Lifecycle Classifier -/

/-- Claim C1: for every join date and positive plan duration in months, the
expiry computed at enrollment is exactly the join date plus `30 * months`
days (fixed 30-day months), and is never earlier than the join date. -/
theorem expiry_calc_correct (j : Day) (m : Int) (hm : 0 < m) :
    expiry_of j m = j + 30 * m ∧ j ≤ expiry_of j m := by
  refine ⟨rfl, ?_⟩
  have h30 : (0 : Int) ≤ 30 * m := by nlinarith
  exact le_add_of_nonneg_right h30

/-- Witness for C1: join date 2024-01-01 with a one-month plan. -/
theorem expiry_calc_correct_witness :
    expiry_of (toOrdinal 2024 1 1) 1 = toOrdinal 2024 1 1 + 30 * 1 ∧
      toOrdinal 2024 1 1 ≤ expiry_of (toOrdinal 2024 1 1) 1 :=
  expiry_calc_correct (toOrdinal 2024 1 1) 1 (by decide)

/-- Claim C2: the lifecycle classifier is `Active` iff `today <= expiry`
(so the boundary `today = expiry` is `Active`), and `refresh_members`
recomputes each displayed status from the stored expiry date — a row
carries exactly `classify` of its own expiry, nothing stored. -/
theorem classify_active_iff (e t : Day) (ms : List Member) :
    (classify e t = .Active ↔ t ≤ e) ∧
    classify e e = .Active ∧
    (∀ row : Member × Status,
      row ∈ refresh_members ms t ↔
        row.1 ∈ ms ∧ row.2 = classify row.1.expiryDate t) := by
  refine ⟨?_, ?_, ?_⟩
  · unfold classify
    split <;> simp_all
  · simp [classify]
  · rintro ⟨m0, st0⟩
    simp only [refresh_members, List.mem_map, Prod.mk.injEq]
    constructor
    · rintro ⟨m, hm, rfl, rfl⟩
      exact ⟨hm, rfl⟩
    · rintro ⟨hm, rfl⟩
      exact ⟨m0, hm, rfl, rfl⟩

/-! ### Claims about the Renewal Notifier -/

/-- Claim C3: the renewal scan selects exactly the members whose expiry is
today or tomorrow and whose phone starts with the prefix `91` hard-coded in
the query; expiries at yesterday or the day after tomorrow are never
selected, and members outside the prefix are skipped. -/
theorem renewal_selection (members : List Member) (today : Day) (m : Member) :
    (m ∈ check_renewals_select members today ↔
      m ∈ members ∧ (m.expiryDate = today ∨ m.expiryDate = today + 1) ∧
        strHasPrefix m.phone "91" = true) ∧
    (m.expiryDate = today - 1 ∨ m.expiryDate = today + 2 →
      m ∉ check_renewals_select members today) ∧
    (strHasPrefix m.phone "91" = false →
      m ∉ check_renewals_select members today) := by
  have hiff : m ∈ check_renewals_select members today ↔
      m ∈ members ∧ (m.expiryDate = today ∨ m.expiryDate = today + 1) ∧
        strHasPrefix m.phone "91" = true := by
    simp [check_renewals_select, List.mem_filter]
  refine ⟨hiff, ?_, ?_⟩
  · intro hd hmem
    rcases (hiff.mp hmem).2.1 with h | h <;> rcases hd with h' | h' <;> linarith
  · intro hp hmem
    have := (hiff.mp hmem).2.2
    rw [hp] at this
    exact Bool.false_ne_true this

/-- Witness for C3: a member expiring today with a `91` phone is selected. -/
theorem renewal_selection_witness :
    ({ id := 1, name := "Asha", phone := "919876543210",
       joinDate := 738886, expiryDate := 738916 } : Member) ∈
      check_renewals_select
        [{ id := 1, name := "Asha", phone := "919876543210",
           joinDate := 738886, expiryDate := 738916 }] 738916 :=
  (renewal_selection _ 738916 _).1.mpr ⟨by simp, Or.inl rfl, by decide⟩

/-- Claim C4: delivery failures are per-recipient and do not abort the
scan: the reported count is the number of successful deliveries, so `n`
selected with `k` failures yields `n - k`, an empty selection yields `0`,
and the head's failure leaves the tail's deliveries untouched. -/
theorem renewal_send_count (members : List Member) (today : Day)
    (sel : List Member) (deliver : Member → Bool) (a : Member) :
    send_renewals sel deliver = (sel.filter deliver).length ∧
    sel.length = (sel.filter deliver).length +
      (sel.filter (fun m => !(deliver m))).length ∧
    send_renewals [] deliver = 0 ∧
    send_renewals (a :: sel) deliver =
      (if deliver a then 1 else 0) + send_renewals sel deliver ∧
    check_and_send_renewals members today deliver =
      ((check_renewals_select members today).filter deliver).length := by
  refine ⟨?_, filter_length_split deliver sel, rfl, ?_, ?_⟩
  · simpa using foldl_count_eq_filter_length deliver sel 0
  · by_cases h : deliver a = true <;>
      simp [send_renewals, List.foldl_cons, h,
        foldl_count_eq_filter_length deliver sel]
  · simpa [check_and_send_renewals, send_renewals] using
      foldl_count_eq_filter_length deliver (check_renewals_select members today) 0

/-! ### Claim about member deletion -/

/-- Claim C9: deleting a member removes exactly that member's row; payment
and attendance rows (and the plans) are untouched — no cascading delete. -/
theorem delete_member_frame (s : Store) (mid : Nat) :
    (delete_member s mid).payments = s.payments ∧
    (delete_member s mid).attendance = s.attendance ∧
    (delete_member s mid).plans = s.plans ∧
    ∀ m : Member, m ∈ (delete_member s mid).members ↔ m ∈ s.members ∧ m.id ≠ mid := by
  refine ⟨rfl, rfl, rfl, ?_⟩
  intro m
  simp [delete_member, List.mem_filter]

/-! ### Claims about the Backup Rotation Manager -/

/-- Claim C5: pruning enumerates the glob matches and deletes exactly those
strictly older than 7 days; every younger match — in particular the
snapshot just created — survives, and the deleted count is reported. -/
theorem backup_prune_correct (files : List BackupFile) (now : Int)
    (f : BackupFile) (fs : FileSystem) (ts : String) :
    (f ∈ (pruneBackups files now).1 ↔
      f ∈ files ∧ ¬(matchesBackupGlob f.name = true ∧ f.mtime < now - 7 * 86400)) ∧
    (pruneBackups files now).2 =
      (files.filter (fun g =>
        matchesBackupGlob g.name && decide (g.mtime < now - 7 * 86400))).length ∧
    auto_backup_and_cleanup fs now ts true =
      .ok ({ gymDb := fs.gymDb,
             backups :=
               (pruneBackups ({ name := snapName ts, mtime := now } :: fs.backups) now).1 },
           (pruneBackups ({ name := snapName ts, mtime := now } :: fs.backups) now).2) ∧
    ({ name := snapName ts, mtime := now } : BackupFile) ∈
      (pruneBackups ({ name := snapName ts, mtime := now } :: fs.backups) now).1 := by
  have hkeep : ¬(now < now - 7 * 86400) := by omega
  refine ⟨?_, rfl, rfl, ?_⟩
  · simp only [pruneBackups, List.mem_filter, Bool.not_eq_true', Bool.and_eq_false_iff,
      decide_eq_false_iff_not, Bool.not_eq_true]
    constructor
    · rintro ⟨hmem, h | h⟩
      · exact ⟨hmem, fun hc => absurd h (by simp [hc.1])⟩
      · exact ⟨hmem, fun hc => h hc.2⟩
    · rintro ⟨hmem, h⟩
      refine ⟨hmem, ?_⟩
      by_cases hg : matchesBackupGlob f.name = true
      · exact Or.inr (fun hlt => h ⟨hg, hlt⟩)
      · exact Or.inl (Bool.not_eq_true _ |>.mp hg)
  · simp [pruneBackups, List.mem_filter, hkeep]

/-- Claim C6 counterexample: with the copy failing on a present, intact
store, `auto_backup_and_cleanup` ends in an uncaught propagated exception
(`Except.error`) — under this embedding's convention the caught-and-reported
outcomes are the `.ok` values — so the failure is NOT converted to a caught,
reported status as the claim states: `shutil.copy` on line 818 sits in no
try/except, neither here nor in the caller on line 107. -/
theorem backup_copy_failure_uncaught :
    auto_backup_and_cleanup { gymDb := some emptyStore, backups := [] } 0
      "20240101_000000" false = .error "shutil.copy failed" := rfl

/-- Claim C6 as amended: a copy failure aborts the backup-and-cleanup
operation before any pruning and propagates as an uncaught fault (it is
not silently swallowed, but neither is it caught and converted to a
status); the live store is never written by this operation — even a
successful run returns it unchanged. -/
theorem backup_copy_failure_semantics (fs : FileSystem) (now : Int) (ts : String) :
    auto_backup_and_cleanup fs now ts false = .error "shutil.copy failed" ∧
    (∀ fs' n, auto_backup_and_cleanup fs now ts true = .ok (fs', n) →
      fs'.gymDb = fs.gymDb) := by
  refine ⟨rfl, ?_⟩
  intro fs' n h
  simp only [auto_backup_and_cleanup, if_true, Except.ok.injEq, Prod.mk.injEq] at h
  rw [← h.1]

/-! ### Branch-structure lemmas for the mutation handlers -/

/-- Every non-success outcome of `add_payment` leaves the store unchanged. -/
theorem add_payment_frame (s : Store) (a b c d : String)
    (h : (add_payment s a b c d).1.isSuccess = false) :
    (add_payment s a b c d).2 = s := by
  unfold add_payment at *
  repeat' split at h
  all_goals simp_all [OpResult.isSuccess]

/-- Every non-success outcome of `add_member` leaves the store unchanged. -/
theorem add_member_frame (s : Store) (nameI ccI phoneI joinI planI : String)
    (h : (add_member s nameI ccI phoneI joinI planI).1.isSuccess = false) :
    (add_member s nameI ccI phoneI joinI planI).2 = s := by
  unfold add_member at *
  repeat' split at h
  all_goals simp_all [OpResult.isSuccess]
  all_goals repeat' split
  all_goals rfl

/-- Every non-success outcome of `mark_attendance` leaves the store
unchanged. -/
theorem mark_attendance_frame (s : Store) (a d st : String)
    (h : (mark_attendance s a d st).1.isSuccess = false) :
    (mark_attendance s a d st).2 = s := by
  unfold mark_attendance at *
  repeat' split at h
  all_goals simp_all [OpResult.isSuccess]
  all_goals repeat' split
  all_goals rfl

/-- What a successful `add_member` presupposes and commits. -/
theorem add_member_ok_shape (s : Store) (nameI ccI phoneI joinI planI : String)
    (r : String) (s' : Store)
    (h : add_member s nameI ccI phoneI joinI planI = (.ok r, s')) :
    isDigitStr (pyStrip phoneI) = true ∧
    ∃ pid plan join_date,
      pyIntParse planI = some pid ∧
      s.plans.find? (fun p => (p.id : Int) == pid) = some plan ∧
      parseDateStr (pyStrip joinI) = some join_date ∧
      s.members.any (fun m => m.phone == lstripPlus ccI ++ pyStrip phoneI) = false ∧
      s' = { s with
        members := s.members ++
          [{ id := s.nextMemberId, name := pyStrip nameI,
             phone := lstripPlus ccI ++ pyStrip phoneI,
             joinDate := join_date,
             expiryDate := expiry_of join_date plan.durationMonths }],
        nextMemberId := s.nextMemberId + 1 } := by
  unfold add_member at h
  repeat' split at h
  all_goals simp_all

/-- What a successful `add_payment` presupposes and commits. -/
theorem add_payment_ok_shape (s : Store) (a b c d : String)
    (r : String) (s' : Store)
    (h : add_payment s a b c d = (.ok r, s')) :
    ∃ mid payment_date,
      pyIntParse (pyStrip a) = some mid ∧
      parseDateStr (pyStrip d) = some payment_date ∧
      pyFloatOk (pyStrip b) = true ∧
      s.members.any (fun m => (m.id : Int) == mid) = true ∧
      s' = { s with
        payments := s.payments ++
          [{ id := s.nextPaymentId, memberId := mid,
             paymentDate := payment_date, amount := pyStrip b,
             method := pyStrip c }],
        nextPaymentId := s.nextPaymentId + 1 } := by
  unfold add_payment at h
  repeat' split at h
  all_goals simp_all

/-- What a successful `mark_attendance` presupposes and commits. -/
theorem mark_attendance_ok_shape (s : Store) (a d st : String)
    (r : String) (s' : Store)
    (h : mark_attendance s a d st = (.ok r, s')) :
    ∃ mid att_date,
      pyIntParse (pyStrip a) = some mid ∧
      parseDateStr (pyStrip d) = some att_date ∧
      s.members.any (fun m => (m.id : Int) == mid) = true ∧
      s.attendance.any (fun row => row.memberId == mid && row.attDate == att_date) = false ∧
      s' = { s with
        attendance := s.attendance ++
          [{ id := s.nextAttId, memberId := mid, attDate := att_date,
             status := st }],
        nextAttId := s.nextAttId + 1 } := by
  unfold mark_attendance at h
  repeat' split at h
  all_goals simp_all

/-- `mark_attendance` either leaves the store unchanged or appends a single
row whose (member, date) key was absent. -/
theorem mark_attendance_cases (s : Store) (a d st : String) :
    (mark_attendance s a d st).2 = s ∨
    ∃ mid att_date,
      s.attendance.any (fun row => row.memberId == mid && row.attDate == att_date) = false ∧
      (mark_attendance s a d st).2.attendance =
        s.attendance ++ [{ id := s.nextAttId, memberId := mid, attDate := att_date,
                           status := st }] := by
  unfold mark_attendance
  repeat' split
  all_goals try exact Or.inl rfl
  refine Or.inr ⟨_, _, ?_, rfl⟩
  simp_all

/-- One `mark_attendance` call preserves the per-(member, date) uniqueness
invariant. -/
theorem mark_attendance_invariant (s : Store) (a d st : String)
    (h : attInvariant s) : attInvariant (mark_attendance s a d st).2 := by
  rcases mark_attendance_cases s a d st with heq | ⟨mid, att_date, hany, heq⟩
  · rwa [attInvariant, heq]
  · rw [attInvariant, heq]
    simp only [List.map_append, List.map_cons, List.map_nil]
    rw [List.nodup_append_comm, List.singleton_append, List.nodup_cons]
    refine ⟨?_, h⟩
    intro hmem
    simp only [List.mem_map] at hmem
    obtain ⟨row, hrow, hpair⟩ := hmem
    have h1 : row.memberId = mid := congrArg Prod.fst hpair
    have h2 : row.attDate = att_date := congrArg Prod.snd hpair
    simp only [List.any_eq_false, Bool.and_eq_true, beq_iff_eq, not_and] at hany
    exact hany row hrow h1 h2

/-- Any sequence of `mark_attendance` calls preserves the invariant. -/
theorem applyMarks_invariant (reqs : List (String × String × String)) :
    ∀ s : Store, attInvariant s → attInvariant (applyMarks s reqs) := by
  induction reqs with
  | nil => intro s h; exact h
  | cons r t ih =>
      intro s h
      exact ih _ (mark_attendance_invariant s r.1 r.2.1 r.2.2 h)

/-! ### Claims about attendance and validation -/

/-- Claim C7: a second attendance mark for an already-marked (member, date)
pair is rejected without mutating the store, and any sequence of
mark-attendance operations preserves "at most one row per pair". -/
theorem attendance_mark_unique (s : Store) (h : attInvariant s) :
    (∀ reqs, attInvariant (applyMarks s reqs)) ∧
    (∀ a d st mid att_date, pyIntParse (pyStrip a) = some mid →
      parseDateStr (pyStrip d) = some att_date →
      (∃ row ∈ s.attendance, row.memberId = mid ∧ row.attDate = att_date) →
      (mark_attendance s a d st).2 = s ∧
        (mark_attendance s a d st).1.isSuccess = false) := by
  refine ⟨fun reqs => applyMarks_invariant reqs s h, ?_⟩
  intro a d st mid att_date hp hq hdup
  unfold mark_attendance
  repeat' split
  all_goals try exact ⟨rfl, rfl⟩
  exfalso
  simp_all

/-- Witness for C7: marking the same member twice on the same date keeps
the store's keys duplicate-free. -/
theorem attendance_mark_unique_witness :
    attInvariant (applyMarks store1 [("1", "2024-01-02", "Present"),
      ("1", "2024-01-02", "Present")]) :=
  (attendance_mark_unique store1 (by decide)).1 _

/-- Claim C8 counterexample: `add_payment` with the non-numeric member id
`"abc"` (all fields nonempty, amount and date valid) ends in an uncaught
`ValueError` from `int(member_id)` on line 442 — not in the caught,
user-correctable error the claim promises — though the store is indeed
unchanged. -/
theorem add_payment_nonnumeric_id_fault :
    add_payment store1 "abc" "500" "cash" "2024-01-15" =
      (.fault "ValueError: invalid literal for int()", store1) := rfl

/-- Claim C8 as amended: every validation or referential error is rejected
before any mutation, leaving the store unchanged; invalid dates/amounts,
non-digit phones, duplicate phones, duplicate attendance keys and
nonexistent member ids are reported as user-correctable errors — but a
NON-NUMERIC MEMBER ID in `add_payment`/`mark_attendance` raises an uncaught
fault (still before any mutation). -/
theorem mutation_validation_semantics (s : Store)
    (a b c d nameI ccI phoneI joinI planI st : String) :
    ((add_payment s a b c d).1.isSuccess = false → (add_payment s a b c d).2 = s) ∧
    ((add_member s nameI ccI phoneI joinI planI).1.isSuccess = false →
      (add_member s nameI ccI phoneI joinI planI).2 = s) ∧
    ((mark_attendance s a d st).1.isSuccess = false →
      (mark_attendance s a d st).2 = s) ∧
    (¬pyStrip a = "" → ¬pyStrip b = "" → ¬pyStrip c = "" → ¬pyStrip d = "" →
      (pyFloatOk (pyStrip b) = false ∨ parseDateStr (pyStrip d) = none) →
      (add_payment s a b c d).1 = .userError "Invalid amount or date!") ∧
    (¬pyStrip a = "" → ¬pyStrip b = "" → ¬pyStrip c = "" → ¬pyStrip d = "" →
      pyFloatOk (pyStrip b) = true → parseDateStr (pyStrip d) ≠ none →
      pyIntParse (pyStrip a) = none →
      (add_payment s a b c d).1 = .fault "ValueError: invalid literal for int()") ∧
    ((add_payment s a b c d).1.isSuccess = true →
      ∃ mid, pyIntParse (pyStrip a) = some mid ∧
        ∃ m ∈ s.members, (m.id : Int) = mid) ∧
    (isDigitStr (pyStrip phoneI) = false →
      (add_member s nameI ccI phoneI joinI planI).1 =
        .userError "Phone number must be digits only!") ∧
    ((add_member s nameI ccI phoneI joinI planI).1.isSuccess = true →
      ∀ m ∈ s.members, m.phone ≠ lstripPlus ccI ++ pyStrip phoneI) ∧
    (¬pyStrip a = "" → ¬pyStrip d = "" → parseDateStr (pyStrip d) = none →
      (mark_attendance s a d st).1 = .userError "Invalid date!") ∧
    ((mark_attendance s a d st).1.isSuccess = true →
      ∃ mid att_date, pyIntParse (pyStrip a) = some mid ∧
        parseDateStr (pyStrip d) = some att_date ∧
        (∃ m ∈ s.members, (m.id : Int) = mid) ∧
        ∀ row ∈ s.attendance, ¬(row.memberId = mid ∧ row.attDate = att_date)) ∧
    (isDigitStr (pyStrip phoneI) = true →
      (ccI = "+91" → (pyStrip phoneI).length = 10) →
      ¬pyStrip nameI = "" → ¬pyStrip joinI = "" →
      ∀ pid plan, pyIntParse planI = some pid →
        s.plans.find? (fun p => (p.id : Int) == pid) = some plan →
        parseDateStr (pyStrip joinI) = none →
        add_member s nameI ccI phoneI joinI planI = (.userError "Invalid date!", s)) ∧
    (isDigitStr (pyStrip phoneI) = true →
      (ccI = "+91" → (pyStrip phoneI).length = 10) →
      ¬pyStrip nameI = "" → ¬pyStrip joinI = "" →
      ∀ pid plan, pyIntParse planI = some pid →
        s.plans.find? (fun p => (p.id : Int) == pid) = some plan →
        parseDateStr (pyStrip joinI) ≠ none →
        s.members.any (fun m => m.phone == lstripPlus ccI ++ pyStrip phoneI) = true →
        add_member s nameI ccI phoneI joinI planI =
          (.userError "Phone number already exists!", s)) ∧
    (¬pyStrip a = "" → ¬pyStrip b = "" → ¬pyStrip c = "" → ¬pyStrip d = "" →
      pyFloatOk (pyStrip b) = true → parseDateStr (pyStrip d) ≠ none →
      ∀ mid, pyIntParse (pyStrip a) = some mid →
        s.members.any (fun m => (m.id : Int) == mid) = false →
        add_payment s a b c d = (.userError "Member ID does not exist!", s)) ∧
    (¬pyStrip a = "" → ¬pyStrip d = "" →
      ∀ att_date mid, parseDateStr (pyStrip d) = some att_date →
        pyIntParse (pyStrip a) = some mid →
        s.members.any (fun m => (m.id : Int) == mid) = false →
        mark_attendance s a d st = (.userError "Member ID does not exist!", s)) ∧
    (¬pyStrip a = "" → ¬pyStrip d = "" →
      ∀ att_date mid, parseDateStr (pyStrip d) = some att_date →
        pyIntParse (pyStrip a) = some mid →
        s.members.any (fun m => (m.id : Int) == mid) = true →
        s.attendance.any (fun row => row.memberId == mid && row.attDate == att_date) = true →
        mark_attendance s a d st =
          (.userError "Attendance already marked for this date!", s)) ∧
    (¬pyStrip a = "" → ¬pyStrip d = "" → parseDateStr (pyStrip d) ≠ none →
      pyIntParse (pyStrip a) = none →
      (mark_attendance s a d st).1 = .fault "ValueError: invalid literal for int()") := by
  refine ⟨add_payment_frame s a b c d, add_member_frame s nameI ccI phoneI joinI planI,
    mark_attendance_frame s a d st, ?_, ?_, ?_, ?_, ?_, ?_, ?_, ?_, ?_, ?_, ?_, ?_, ?_⟩
  · intro h1 h2 h3 h4 h5
    unfold add_payment
    repeat' split
    all_goals simp_all
  · intro h1 h2 h3 h4 h5 h6 h7
    obtain ⟨pd, hpd⟩ : ∃ pd, parseDateStr (pyStrip d) = some pd := by
      cases hx : parseDateStr (pyStrip d) with
      | none => exact absurd hx h6
      | some v => exact ⟨v, rfl⟩
    unfold add_payment
    rw [if_neg (by simp [h1, h2, h3, h4]), h5, hpd, h7]
  · intro hsucc
    rcases hok : add_payment s a b c d with ⟨fst, snd⟩
    rw [hok] at hsucc
    cases fst with
    | ok m =>
        obtain ⟨mid, pd, hp, hq, hf, hany, hs'⟩ :=
          add_payment_ok_shape s a b c d m snd hok
        refine ⟨mid, hp, ?_⟩
        simpa [List.any_eq_true] using hany
    | userError m => simp [OpResult.isSuccess] at hsucc
    | fault m => simp [OpResult.isSuccess] at hsucc
  · intro h
    unfold add_member
    rw [if_pos (by simp [h])]
  · intro hsucc
    rcases hok : add_member s nameI ccI phoneI joinI planI with ⟨fst, snd⟩
    rw [hok] at hsucc
    cases fst with
    | ok m =>
        obtain ⟨hd, pid, plan, jd, hpid, hplan, hjd, hany, hs'⟩ :=
          add_member_ok_shape s nameI ccI phoneI joinI planI m snd hok
        intro mem hmem
        simp only [List.any_eq_false] at hany
        simpa using hany mem hmem
    | userError m => simp [OpResult.isSuccess] at hsucc
    | fault m => simp [OpResult.isSuccess] at hsucc
  · intro h1 h2 h3
    unfold mark_attendance
    repeat' split
    all_goals simp_all
  · intro hsucc
    rcases hok : mark_attendance s a d st with ⟨fst, snd⟩
    rw [hok] at hsucc
    cases fst with
    | ok m =>
        obtain ⟨mid, att_date, hp, hq, hex, hany, hs'⟩ :=
          mark_attendance_ok_shape s a d st m snd hok
        refine ⟨mid, att_date, hp, hq, ?_, ?_⟩
        · simpa [List.any_eq_true] using hex
        · intro row hrow
          simp only [List.any_eq_false, Bool.and_eq_true, beq_iff_eq, not_and] at hany
          intro hcon
          exact hany row hrow hcon.1 hcon.2
    | userError m => simp [OpResult.isSuccess] at hsucc
    | fault m => simp [OpResult.isSuccess] at hsucc
  · intro hd hcc hn hj pid plan hpid hplan hdate
    unfold add_member
    repeat' split
    all_goals simp_all
  · intro hd hcc hn hj pid plan hpid hplan hdate hdup
    unfold add_member
    repeat' split
    all_goals simp_all
  · intro h1 h2 h3 h4 h5 h6 mid hmid hex
    obtain ⟨pd, hpd⟩ : ∃ pd, parseDateStr (pyStrip d) = some pd := by
      cases hx : parseDateStr (pyStrip d) with
      | none => exact absurd hx h6
      | some v => exact ⟨v, rfl⟩
    unfold add_payment
    repeat' split
    all_goals simp_all
  · intro h1 h2 att_date mid hday hmid hex
    unfold mark_attendance
    repeat' split
    all_goals simp_all
  · intro h1 h2 att_date mid hday hmid hex hdup
    unfold mark_attendance
    repeat' split
    all_goals simp_all
    all_goals tauto
  · intro h1 h2 h3 h4
    obtain ⟨day, hday⟩ : ∃ day, parseDateStr (pyStrip d) = some day := by
      cases hx : parseDateStr (pyStrip d) with
      | none => exact absurd hx h3
      | some v => exact ⟨v, rfl⟩
    unfold mark_attendance
    rw [if_neg (by simp [h1, h2]), hday, h4]

/-- Witness for C8 (amended): a malformed amount is caught and reported as
a user-correctable error. -/
theorem mutation_validation_semantics_witness :
    (add_payment store1 "1" "xyz" "cash" "2024-01-15").1 =
      .userError "Invalid amount or date!" :=
  ((mutation_validation_semantics store1 "1" "xyz" "cash" "2024-01-15"
      "n" "+91" "p" "j" "pl" "Present").2.2.2.1)
    (by decide) (by decide) (by decide) (by decide) (Or.inl (by decide))

/-- Claim C10: at the add-member boundary, a non-digit local phone is
rejected before any mutation, as is a `+91` local phone that is not exactly
10 digits; on success the stored phone is the country code without its `+`
concatenated with the local digits. -/
theorem add_member_phone_validation (s : Store) (nameI ccI phoneI joinI planI : String) :
    (isDigitStr (pyStrip phoneI) = false →
      add_member s nameI ccI phoneI joinI planI =
        (.userError "Phone number must be digits only!", s)) ∧
    (isDigitStr (pyStrip phoneI) = true → ccI = "+91" →
      (pyStrip phoneI).length ≠ 10 →
      add_member s nameI ccI phoneI joinI planI =
        (.userError "For India (+91), local phone must be exactly 10 digits!", s)) ∧
    (∀ r s', add_member s nameI ccI phoneI joinI planI = (.ok r, s') →
      ∃ mem : Member, s'.members = s.members ++ [mem] ∧
        mem.phone = lstripPlus ccI ++ pyStrip phoneI) := by
  refine ⟨?_, ?_, ?_⟩
  · intro h
    unfold add_member
    rw [if_pos (by simp [h])]
  · intro h1 h2 h3
    unfold add_member
    rw [if_neg (by simp [h1]), if_pos (by simp [h2, h3])]
  · intro r s' h
    obtain ⟨hd, pid, plan, jd, hpid, hplan, hjd, hany, hs'⟩ :=
      add_member_ok_shape s nameI ccI phoneI joinI planI r s' h
    exact ⟨_, by rw [hs'], rfl⟩

/-- Witness for C10: a local phone with a letter in it is rejected. -/
theorem add_member_phone_validation_witness :
    add_member store1 "Bob" "+91" "12a" "2024-02-01" "1" =
      (.userError "Phone number must be digits only!", store1) :=
  (add_member_phone_validation store1 "Bob" "+91" "12a" "2024-02-01" "1").1 (by decide)

end GymApp
